import Mathlib

/-!
Shallow embedding of `src/module_1/module_1_meteo_api.py`: a weather
pipeline that fetches daily observations per city, aggregates them into
month-by-year tables, and renders per-year line charts.

Numeric values (temperatures, precipitation, wind speeds, coordinates)
are embedded as exact rationals `ℚ`; dates arrive as strings and are
parsed the way `pd.to_datetime` parses ISO `YYYY-MM-DD` dates.
-/

/-- `API_URL` constant from the source. -/
def API_URL : String := "https://archive-api.open-meteo.com/v1/archive?"

/-- `VARIABLES` constant from the source: the three requested daily variables. -/
def VARIABLES : List String :=
  ["temperature_2m_mean", "precipitation_sum", "wind_speed_10m_max"]

/-- `COORDINATES` constant from the source: city name, latitude, longitude. -/
def COORDINATES : List (String × ℚ × ℚ) :=
  [("Madrid", 40.416775, -3.703790),
   ("London", 51.507351, -0.127758),
   ("Rio", -22.906847, -43.172896)]

/-- `INITIAL_DATE` constant from the source. -/
def INITIAL_DATE : String := "2010-01-01"

/-- `FINAL_DATE` constant from the source. -/
def FINAL_DATE : String := "2020-12-31"

/-- A calendar date as extracted by `pd.to_datetime` plus `.dt.year` / `.dt.month`. -/
structure Date where
  year : Nat
  month : Nat
  day : Nat
deriving DecidableEq, Repr

/-- Splitting of a character sequence at every dash, for date parsing. -/
def splitDashes : List Char → List (List Char)
  | [] => [[]]
  | c :: cs =>
    if c = '-' then [] :: splitDashes cs
    else
      match splitDashes cs with
      | [] => [[c]]
      | g :: gs => (c :: g) :: gs

/-- Reading of a non-empty run of decimal digits as a number; any other
character sequence yields `none`. -/
def digitsToNat : List Char → Option Nat → Option Nat
  | [], acc => acc
  | c :: cs, acc =>
    if c.isDigit then
      digitsToNat cs (some (acc.getD 0 * 10 + (c.toNat - 48)))
    else none

/-- Parsing of one ISO `YYYY-MM-DD` date string, as `pd.to_datetime` does on
the `time` strings returned by the API; an unparseable string yields `none`
(in pandas: raises). -/
def parseDate (s : String) : Option Date :=
  match splitDashes s.data with
  | [y, m, d] =>
    match digitsToNat y none, digitsToNat m none, digitsToNat d none with
    | some yn, some mn, some dn =>
      if 1 ≤ mn ∧ mn ≤ 12 ∧ 1 ≤ dn ∧ dn ≤ 31 then some ⟨yn, mn, dn⟩ else none
    | _, _, _ => none
  | _ => none

/-- The `daily` field of the API JSON consumed by `transform_weather_data`:
parallel arrays `time`, `temperature_2m_mean`, `precipitation_sum`,
`wind_speed_10m_max`. -/
structure DailyData where
  time : List String
  temperature_2m_mean : List ℚ
  precipitation_sum : List ℚ
  wind_speed_10m_max : List ℚ
deriving DecidableEq, Repr

/-- The parsed JSON body returned by a successful API call; the transformer
reads its `daily` field. -/
structure ApiResponse where
  daily : DailyData
deriving DecidableEq, Repr

/-- The `ValueError` / `pandas` exceptions that `transform_weather_data` can
raise: unequal column lengths at `pd.DataFrame` construction, or an
unparseable date at `pd.to_datetime`. -/
inductive TransformError where
  | lengthMismatch
  | unparseableDate (s : String)
deriving DecidableEq, Repr

/-- One row of the DataFrame built by `transform_weather_data` after date
parsing: a daily observation. -/
structure Row where
  date : Date
  temperature_2m_mean : ℚ
  precipitation_sum : ℚ
  wind_speed_10m_max : ℚ
deriving DecidableEq, Repr

/-- Positional alignment of the parallel arrays into DataFrame rows. -/
def mkRows : List Date → List ℚ → List ℚ → List ℚ → List Row
  | d :: ds, t :: ts, p :: ps, w :: ws => ⟨d, t, p, w⟩ :: mkRows ds ts ps ws
  | _, _, _, _ => []

/-- Parsing of the whole `time` column; the first unparseable string aborts
with the exception `pd.to_datetime` would raise. -/
def parseDates : List String → Except TransformError (List Date)
  | [] => Except.ok []
  | s :: ss =>
    match parseDate s with
    | none => Except.error (TransformError.unparseableDate s)
    | some d =>
      match parseDates ss with
      | Except.error e => Except.error e
      | Except.ok ds => Except.ok (d :: ds)

/-- The DataFrame-building phase of `transform_weather_data`:
`pd.DataFrame` raises when the four arrays differ in length, then
`pd.to_datetime` parses the `date` column. -/
def buildRows (d : DailyData) : Except TransformError (List Row) :=
  if d.temperature_2m_mean.length = d.time.length ∧
     d.precipitation_sum.length = d.time.length ∧
     d.wind_speed_10m_max.length = d.time.length then
    match parseDates d.time with
    | Except.error e => Except.error e
    | Except.ok dates =>
      Except.ok (mkRows dates d.temperature_2m_mean d.precipitation_sum
        d.wind_speed_10m_max)
  else Except.error TransformError.lengthMismatch

/-- The group selected by `groupby(["year", "month"])` for one key. -/
def groupRows (rows : List Row) (y m : Nat) : List Row :=
  rows.filter (fun r => r.date.year == y && r.date.month == m)

/-- Maximum of a list of rationals, as pandas `.max()` over a group column. -/
def listMax : List ℚ → Option ℚ
  | [] => none
  | x :: xs =>
    match listMax xs with
    | none => some x
    | some m => some (max x m)

/-- One cell of the temperature pivot table: mean of the group's
`temperature_2m_mean` column, absent when the group is empty. -/
def tempCell (rows : List Row) (y m : Nat) : Option ℚ :=
  if (groupRows rows y m).isEmpty then none
  else some (((groupRows rows y m).map Row.temperature_2m_mean).sum /
    ((groupRows rows y m).length : ℚ))

/-- One cell of the precipitation pivot table: sum of the group's
`precipitation_sum` column, absent when the group is empty. -/
def precipCell (rows : List Row) (y m : Nat) : Option ℚ :=
  if (groupRows rows y m).isEmpty then none
  else some (((groupRows rows y m).map Row.precipitation_sum).sum)

/-- One cell of the wind-speed pivot table: max of the group's
`wind_speed_10m_max` column, absent when the group is empty. -/
def windCell (rows : List Row) (y m : Nat) : Option ℚ :=
  listMax ((groupRows rows y m).map Row.wind_speed_10m_max)

/-- The triple of pivot tables returned by `transform_weather_data`; a table
maps (year, month) to its aggregate, `none` meaning the cell is absent
(`NaN` / missing row in the pandas pivot). -/
structure Tables where
  temperature : Nat → Nat → Option ℚ
  precipitation : Nat → Nat → Option ℚ
  windspeed : Nat → Nat → Option ℚ

/-- Assembly of the three pivot tables from the DataFrame rows. -/
def mkTables (rows : List Row) : Tables :=
  ⟨tempCell rows, precipCell rows, windCell rows⟩

/-- `transform_weather_data` from the source: build the DataFrame from the
`daily` arrays (raising on length mismatch), parse dates (raising on an
unparseable date), group by (year, month), aggregate with mean / sum / max,
and pivot into month-by-year tables. -/
def transform_weather_data (d : DailyData) : Except TransformError Tables :=
  match buildRows d with
  | Except.error e => Except.error e
  | Except.ok rows => Except.ok (mkTables rows)

/-- Outcome of the HTTP call made inside `get_data_meteo_api`: a response
with a status code and parsed body, or a transport-level
`requests.exceptions.RequestException` with its message. -/
inductive HttpOutcome where
  | response (status : Nat) (body : ApiResponse)
  | transportError (msg : String)

/-- `get_data_meteo_api` from the source, given the outcome of its single
HTTP GET: on status 200 it prints a success message and returns the JSON;
on any other status, or a transport error, it prints a failure message
naming the city and cause and returns `None`. The returned pair is
(printed messages, returned value). -/
def get_data_meteo_api (outcome : HttpOutcome) (city_name : String) :
    List String × Option ApiResponse :=
  match outcome with
  | HttpOutcome.response status body =>
    if status = 200 then
      (["Data retrieved successfully for " ++ city_name], some body)
    else
      (["Failed to retrieve data for " ++ city_name ++ ". Status code: " ++
        toString status], none)
  | HttpOutcome.transportError msg =>
    (["An error occurred: " ++ msg], none)

/-- What the `main` loop did for one city. -/
inductive CityResult where
  | skipped (city : String)
  | completed (city : String) (tables : Tables)

/-- The city a `CityResult` is about. -/
def CityResult.cityName : CityResult → String
  | CityResult.skipped c => c
  | CityResult.completed c _ => c

/-- The per-city loop of `main`: fetch; on `None` print a skip message and
`continue`; otherwise transform and render. A `TransformError` is raised
uncaught inside the loop body, so it terminates the whole run: the pair
returned is (results of the cities processed before the exception, the
uncaught exception if one occurred). -/
def runCities (world : String → HttpOutcome) : List String →
    List CityResult × Option TransformError
  | [] => ([], none)
  | c :: cs =>
    match (get_data_meteo_api (world c) c).2 with
    | none =>
      let r := runCities world cs
      (CityResult.skipped c :: r.1, r.2)
    | some resp =>
      match transform_weather_data resp.daily with
      | Except.error e => ([], some e)
      | Except.ok t =>
        let r := runCities world cs
        (CityResult.completed c t :: r.1, r.2)

/-- `main` from the source: iterate over the configured cities, with the
network's behaviour abstracted as `world`. -/
def main_run (world : String → HttpOutcome) :
    List CityResult × Option TransformError :=
  runCities world (COORDINATES.map Prod.fst)

/-- Value of one query parameter as built in `get_data_meteo_api`: the
source's `params` dict maps `latitude` / `longitude` to floats, the two
dates to strings, and `daily` to the Python list `VARIABLES`. -/
inductive ParamValue where
  | str (s : String)
  | num (q : ℚ)
  | list (vs : List String)
deriving DecidableEq, Repr

/-- The `params` dict of `get_data_meteo_api`, in the order written in the
source. -/
def requestParams (latitude longitude : ℚ) (start_date end_date : String) :
    List (String × ParamValue) :=
  [("latitude", ParamValue.num latitude),
   ("longitude", ParamValue.num longitude),
   ("start_date", ParamValue.str start_date),
   ("end_date", ParamValue.str end_date),
   ("daily", ParamValue.list VARIABLES)]

/-- The single HTTP request issued by `requests.get(api_url, params=params)`. -/
structure HttpRequest where
  method : String
  url : String
  params : List (String × ParamValue)
deriving DecidableEq, Repr

/-- Construction of the one GET request sent per city by
`get_data_meteo_api`. -/
def buildRequest (latitude longitude : ℚ) (start_date end_date : String) :
    HttpRequest :=
  ⟨"GET", API_URL, requestParams latitude longitude start_date end_date⟩

/-- Query-string encoding applied by the HTTP client (`requests` /
`urllib.parse.urlencode` with sequence values): a scalar parameter becomes
one `key=value` pair, while a list-valued parameter is repeated, one
`key=value` pair per element, in order. -/
def encodeParams (ps : List (String × ParamValue)) : List (String × ParamValue) :=
  (ps.map (fun kv =>
    match kv with
    | (k, ParamValue.list vs) => vs.map (fun v => (k, ParamValue.str v))
    | other => [other])).flatten

/-- The year columns of a pivot table in the order `plot_variable` draws
them: `years = sorted(data.columns)`. -/
def plotYears (cols : List Nat) : List Nat :=
  List.insertionSort (fun a b => a ≤ b) cols

/-- The position in the per-variable color ramp assigned to a year by
`plot_variable`: `for i, year in enumerate(years): color = cmap(norm(i))`,
so a year's ramp position is its index in the sorted year list. -/
def rampIndex (cols : List Nat) (y : Nat) : Nat :=
  (plotYears cols).indexOf y

/-- A well-formed one-day payload used in the run scenarios. -/
def goodDaily : DailyData := ⟨["2020-01-01"], [1], [0], [3]⟩

/-- A payload whose `time` entry is an unparseable date string. -/
def badDaily : DailyData := ⟨["bad-date"], [1], [0], [3]⟩

/-- A payload whose `temperature_2m_mean` array is shorter than `time`. -/
def mismatchedDaily : DailyData := ⟨["2020-01-01", "2020-01-02"], [1], [0, 0], [3, 3]⟩

/-- Network behaviour where every fetch succeeds but Madrid's payload holds
an unparseable date. -/
def worldBadDate : String → HttpOutcome := fun c =>
  if c = "Madrid" then HttpOutcome.response 200 ⟨badDaily⟩
  else HttpOutcome.response 200 ⟨goodDaily⟩

/-- Network behaviour where every fetch succeeds but London's payload has
arrays of unequal length. -/
def worldMismatch : String → HttpOutcome := fun c =>
  if c = "London" then HttpOutcome.response 200 ⟨mismatchedDaily⟩
  else HttpOutcome.response 200 ⟨goodDaily⟩

/-- Membership in a `groupby` group is membership in the input with the
matching (year, month) key. -/
lemma mem_groupRows {rows : List Row} {y m : Nat} {r : Row} :
    r ∈ groupRows rows y m ↔ r ∈ rows ∧ r.date.year = y ∧ r.date.month = m := by
  simp [groupRows, List.mem_filter]

/-- `listMax` of a non-empty list is defined. -/
lemma listMax_isSome {l : List ℚ} (h : l ≠ []) : (listMax l).isSome := by
  cases l with
  | nil => exact absurd rfl h
  | cons x xs =>
    unfold listMax
    cases hx : listMax xs <;> simp

/-- `listMax` is `none` exactly on the empty list. -/
lemma listMax_eq_none_iff {l : List ℚ} : listMax l = none ↔ l = [] := by
  cases l with
  | nil => simp [listMax]
  | cons x xs =>
    constructor
    · intro h
      have := listMax_isSome (l := x :: xs) (by simp)
      rw [h] at this
      simp at this
    · intro h
      simp at h

/-- A value returned by `listMax` is a member of the list and an upper
bound of it. -/
lemma listMax_spec : ∀ {l : List ℚ} {q : ℚ}, listMax l = some q →
    q ∈ l ∧ ∀ x ∈ l, x ≤ q := by
  intro l
  induction l with
  | nil => intro q h; simp [listMax] at h
  | cons x xs ih =>
    intro q h
    unfold listMax at h
    cases hx : listMax xs with
    | none =>
      rw [hx] at h
      have hxs : xs = [] := listMax_eq_none_iff.mp hx
      subst hxs
      simp at h
      subst h
      simp
    | some m =>
      rw [hx] at h
      simp at h
      subst h
      obtain ⟨hm, hub⟩ := ih hx
      refine ⟨?_, ?_⟩
      · rcases max_choice x m with hc | hc
        · rw [hc]; exact List.mem_cons_self x xs
        · rw [hc]; exact List.mem_cons_of_mem x hm
      · intro z hz
        rcases List.mem_cons.mp hz with hz | hz
        · rw [hz]; exact le_max_left x m
        · exact le_trans (hub z hz) (le_max_right x m)

/-- `listMax` depends only on the multiset of elements. -/
lemma listMax_perm {l₁ l₂ : List ℚ} (h : l₁.Perm l₂) :
    listMax l₁ = listMax l₂ := by
  by_cases hn : l₁ = []
  · subst hn
    have h₂ : l₂ = [] := h.symm.eq_nil
    rw [h₂]
  · have h₂ : l₂ ≠ [] := by
      intro hnil
      rw [hnil] at h
      exact hn h.eq_nil
    obtain ⟨q₁, hq₁⟩ := Option.isSome_iff_exists.mp (listMax_isSome hn)
    obtain ⟨q₂, hq₂⟩ := Option.isSome_iff_exists.mp (listMax_isSome h₂)
    obtain ⟨hm₁, hub₁⟩ := listMax_spec hq₁
    obtain ⟨hm₂, hub₂⟩ := listMax_spec hq₂
    rw [hq₁, hq₂]
    have hle : q₁ ≤ q₂ := hub₂ q₁ (h.mem_iff.mp hm₁)
    have hge : q₂ ≤ q₁ := hub₁ q₂ (h.mem_iff.mpr hm₂)
    rw [le_antisymm hle hge]

/-- A cell guarded by emptiness of the (y, m) group is present iff some row
has that key. -/
lemma isSome_ite_group (rows : List Row) (y m : Nat) (e : ℚ) :
    (if (groupRows rows y m).isEmpty then none else some e).isSome ↔
      ∃ r ∈ rows, r.date.year = y ∧ r.date.month = m := by
  by_cases hg : groupRows rows y m = []
  · rw [if_pos (List.isEmpty_iff.mpr hg)]
    simp only [Option.isSome_none, Bool.false_eq_true, false_iff]
    rintro ⟨r, hr, hy, hm⟩
    have : r ∈ groupRows rows y m := mem_groupRows.mpr ⟨hr, hy, hm⟩
    rw [hg] at this
    simp at this
  · rw [if_neg (fun hc => hg (List.isEmpty_iff.mp hc))]
    simp only [Option.isSome_some, true_iff]
    obtain ⟨r, hr⟩ := List.exists_mem_of_ne_nil _ hg
    exact ⟨r, (mem_groupRows.mp hr).1, (mem_groupRows.mp hr).2⟩

/-- The temperature table has a cell at (y, m) iff some row has that key. -/
lemma tempCell_isSome_iff (rows : List Row) (y m : Nat) :
    (tempCell rows y m).isSome ↔
      ∃ r ∈ rows, r.date.year = y ∧ r.date.month = m := by
  rw [tempCell]
  exact isSome_ite_group rows y m _

/-- The precipitation table has a cell at (y, m) iff some row has that key. -/
lemma precipCell_isSome_iff (rows : List Row) (y m : Nat) :
    (precipCell rows y m).isSome ↔
      ∃ r ∈ rows, r.date.year = y ∧ r.date.month = m := by
  rw [precipCell]
  exact isSome_ite_group rows y m _

/-- The wind-speed table has a cell at (y, m) iff some row has that key. -/
lemma windCell_isSome_iff (rows : List Row) (y m : Nat) :
    (windCell rows y m).isSome ↔
      ∃ r ∈ rows, r.date.year = y ∧ r.date.month = m := by
  unfold windCell
  constructor
  · intro h
    obtain ⟨q, hq⟩ := Option.isSome_iff_exists.mp h
    have hne : (groupRows rows y m).map Row.wind_speed_10m_max ≠ [] := by
      intro hn
      rw [hn] at hq
      simp [listMax] at hq
    have : groupRows rows y m ≠ [] := by
      intro hn
      rw [hn] at hne
      simp at hne
    obtain ⟨r, hr⟩ := List.exists_mem_of_ne_nil _ this
    exact ⟨r, (mem_groupRows.mp hr).1, (mem_groupRows.mp hr).2⟩
  · rintro ⟨r, hr, hy, hm⟩
    have : r ∈ groupRows rows y m := mem_groupRows.mpr ⟨hr, hy, hm⟩
    have hne : (groupRows rows y m).map Row.wind_speed_10m_max ≠ [] := by
      intro hn
      rw [List.map_eq_nil_iff] at hn
      rw [hn] at this
      simp at this
    exact listMax_isSome hne

/-- The spec's arithmetic mean of a list of values, written from the spec's
words for comparison against the code's aggregation. -/
def specMean (l : List ℚ) : ℚ := l.sum / (l.length : ℚ)

/-- The two-observation January 2020 payload of the spec's end-to-end
scenario. -/
def exampleDaily : DailyData :=
  ⟨["2020-01-01", "2020-01-02"], [10, 12], [2, 0], [15, 20]⟩

/-- The DataFrame rows of `exampleDaily`. -/
def exampleRows : List Row :=
  [⟨⟨2020, 1, 1⟩, 10, 2, 15⟩, ⟨⟨2020, 1, 2⟩, 12, 0, 20⟩]

/-- Observations for January and March 2020 with none for February. -/
def gapDaily : DailyData :=
  ⟨["2020-01-15", "2020-03-15"], [5, 7], [1, 2], [10, 20]⟩

/-- The DataFrame rows of `gapDaily`. -/
def gapRows : List Row :=
  [⟨⟨2020, 1, 15⟩, 5, 1, 10⟩, ⟨⟨2020, 3, 15⟩, 7, 2, 20⟩]

/-- Network behaviour where every fetch gets a 500 response. -/
def worldFail : String → HttpOutcome := fun _ =>
  HttpOutcome.response 500 ⟨goodDaily⟩

example : parseDate "2020-01-01" = some ⟨2020, 1, 1⟩ := by decide
example : parseDate "bad-date" = none := by decide

/-- C1: a malformed observation (unparseable date) makes the Transformer
signal a `TransformFailure` to its caller — this part holds — but the
Orchestrator's loop does not continue with the next city: the uncaught
exception aborts the whole run, so London and Rio are never processed even
though their payloads are well-formed. -/
theorem C1_transform_error_aborts_whole_run :
    transform_weather_data badDaily =
      Except.error (TransformError.unparseableDate "bad-date")
    ∧ (∃ t, transform_weather_data goodDaily = Except.ok t)
    ∧ (runCities worldBadDate (COORDINATES.map Prod.fst)).2 =
        some (TransformError.unparseableDate "bad-date")
    ∧ (runCities worldBadDate (COORDINATES.map Prod.fst)).1.map
        CityResult.cityName = [] :=
  ⟨rfl, ⟨mkTables [⟨⟨2020, 1, 1⟩, 1, 0, 3⟩], rfl⟩, rfl, rfl⟩

/-- C2: per-variable arrays of unequal length make `pd.DataFrame` raise
inside the Transformer; the fetch for that city succeeded (the value
returned to the loop is not `None`), so the `None` guard does not catch it,
the exception aborts the run after Madrid, and Rio is never processed —
the city is not skipped and the run does not continue. -/
theorem C2_length_mismatch_aborts_whole_run :
    transform_weather_data mismatchedDaily =
      Except.error TransformError.lengthMismatch
    ∧ (get_data_meteo_api (worldMismatch "London") "London").2 =
        some ⟨mismatchedDaily⟩
    ∧ (runCities worldMismatch (COORDINATES.map Prod.fst)).2 =
        some TransformError.lengthMismatch
    ∧ (runCities worldMismatch (COORDINATES.map Prod.fst)).1.map
        CityResult.cityName = ["Madrid"]
    ∧ (∃ t, transform_weather_data goodDaily = Except.ok t) :=
  ⟨rfl, rfl, rfl, rfl, ⟨mkTables [⟨⟨2020, 1, 1⟩, 1, 0, 3⟩], rfl⟩⟩

/-- C3 counterexample: for a transport-level error the failure the Fetcher
produces does not carry the city name: the printed message is exactly
`An error occurred: <cause>`, it is identical for two different cities, and
the city name is not a substring of it. -/
theorem C3_transport_error_lacks_city_name :
    get_data_meteo_api (HttpOutcome.transportError "timeout") "Madrid" =
      (["An error occurred: " ++ "timeout"], none)
    ∧ get_data_meteo_api (HttpOutcome.transportError "timeout") "Madrid" =
        get_data_meteo_api (HttpOutcome.transportError "timeout") "London"
    ∧ ¬ List.IsInfix "Madrid".data ("An error occurred: " ++ "timeout").data :=
  ⟨rfl, rfl, by decide⟩

/-- C3 amended: on a non-success status `get_data_meteo_api` returns the
failure value `None` with a printed message naming the city and the status
code; on a transport-level error it returns `None` with a printed message
carrying only the human-readable cause (not the city name); in neither
case does it raise, and the `main` loop then skips that city and processes
the remaining cities exactly as it would have. -/
theorem C3_fetch_failure_skips_only_that_city_amended
    (city msg : String) (status : Nat) (body : ApiResponse)
    (world : String → HttpOutcome) (cs : List String) :
    (status ≠ 200 →
      get_data_meteo_api (HttpOutcome.response status body) city =
        (["Failed to retrieve data for " ++ city ++ ". Status code: " ++
          toString status], none))
    ∧ get_data_meteo_api (HttpOutcome.transportError msg) city =
        (["An error occurred: " ++ msg], none)
    ∧ ((get_data_meteo_api (world city) city).2 = none →
        runCities world (city :: cs) =
          (CityResult.skipped city :: (runCities world cs).1,
           (runCities world cs).2)) := by
  refine ⟨?_, rfl, ?_⟩
  · intro h
    simp [get_data_meteo_api, h]
  · intro h
    simp only [runCities, h]

/-- Witness for C3's amended claim at a concrete failing status and a
concrete run. -/
theorem C3_fetch_failure_amended_witness :
    get_data_meteo_api (HttpOutcome.response 500 ⟨goodDaily⟩) "London" =
      (["Failed to retrieve data for " ++ "London" ++ ". Status code: " ++
        toString 500], none)
    ∧ runCities worldFail ["London", "Rio"] =
        (CityResult.skipped "London" :: (runCities worldFail ["Rio"]).1,
         (runCities worldFail ["Rio"]).2) :=
  ⟨(C3_fetch_failure_skips_only_that_city_amended "London" "" 500 ⟨goodDaily⟩
      worldFail ["Rio"]).1 (by decide),
   (C3_fetch_failure_skips_only_that_city_amended "London" "" 500 ⟨goodDaily⟩
      worldFail ["Rio"]).2.2 rfl⟩

/-- C7 counterexample: in the request actually built by
`get_data_meteo_api`, the `daily` parameter's value is the Python list of
the three variable identifiers, not the single comma-joined string the
claim describes; under the HTTP client's sequence encoding it is sent as a
repeated parameter, and the comma-joined value appears nowhere. -/
theorem C7_daily_is_list_not_comma_joined :
    List.lookup "daily"
        (requestParams 40.416775 (-3.703790) INITIAL_DATE FINAL_DATE) =
      some (ParamValue.list VARIABLES)
    ∧ List.lookup "daily"
        (requestParams 40.416775 (-3.703790) INITIAL_DATE FINAL_DATE) ≠
      some (ParamValue.str
        "temperature_2m_mean,precipitation_sum,wind_speed_10m_max")
    ∧ ("daily", ParamValue.str
        "temperature_2m_mean,precipitation_sum,wind_speed_10m_max") ∉
      encodeParams (requestParams 40.416775 (-3.703790) INITIAL_DATE
        FINAL_DATE) := by
  refine ⟨rfl, ?_, ?_⟩
  · intro h
    simp [requestParams, List.lookup] at h
  · intro h
    simp [requestParams, encodeParams, VARIABLES] at h

/-- C7 amended: the Fetcher builds a single GET to the fixed archive
endpoint whose parameters are exactly latitude, longitude, start date, end
date, and `daily` holding the list of the three variable identifiers; the
HTTP client encodes the list as a repeated `daily` parameter, one
occurrence per identifier, in order. -/
theorem C7_request_built_by_fetcher (latitude longitude : ℚ)
    (start_date end_date : String) :
    buildRequest latitude longitude start_date end_date =
      ⟨"GET", API_URL,
       [("latitude", ParamValue.num latitude),
        ("longitude", ParamValue.num longitude),
        ("start_date", ParamValue.str start_date),
        ("end_date", ParamValue.str end_date),
        ("daily", ParamValue.list ["temperature_2m_mean",
          "precipitation_sum", "wind_speed_10m_max"])]⟩
    ∧ encodeParams (requestParams latitude longitude start_date end_date) =
      [("latitude", ParamValue.num latitude),
       ("longitude", ParamValue.num longitude),
       ("start_date", ParamValue.str start_date),
       ("end_date", ParamValue.str end_date),
       ("daily", ParamValue.str "temperature_2m_mean"),
       ("daily", ParamValue.str "precipitation_sum"),
       ("daily", ParamValue.str "wind_speed_10m_max")] :=
  ⟨rfl, rfl⟩
example : (runCities worldBadDate (COORDINATES.map Prod.fst)).1.map CityResult.cityName = [] := by rfl
example : (runCities worldBadDate (COORDINATES.map Prod.fst)).2 = some (TransformError.unparseableDate "bad-date") := by rfl
example : (runCities worldMismatch (COORDINATES.map Prod.fst)).1.map CityResult.cityName = ["Madrid"] := by rfl
example : (runCities worldMismatch (COORDINATES.map Prod.fst)).2 = some TransformError.lengthMismatch := by rfl

/-- C4: a table built by a successful transform has a cell at (year y,
month m) exactly when some DataFrame row of the input falls in that month
and year; absent combinations yield no cell (no zero, no interpolation). -/
theorem C4_cell_present_iff_observation (d : DailyData) (rows : List Row)
    (t : Tables) (hr : buildRows d = Except.ok rows)
    (ht : transform_weather_data d = Except.ok t) (y m : Nat) :
    ((t.temperature y m).isSome ↔
      ∃ r ∈ rows, r.date.year = y ∧ r.date.month = m)
    ∧ ((t.precipitation y m).isSome ↔
      ∃ r ∈ rows, r.date.year = y ∧ r.date.month = m)
    ∧ ((t.windspeed y m).isSome ↔
      ∃ r ∈ rows, r.date.year = y ∧ r.date.month = m) := by
  have hT : t = mkTables rows := by
    unfold transform_weather_data at ht
    rw [hr] at ht
    injection ht with h
    exact h.symm
  subst hT
  exact ⟨tempCell_isSome_iff rows y m, precipCell_isSome_iff rows y m,
    windCell_isSome_iff rows y m⟩

/-- Witness for C4: with observations for January and March 2020 only, the
February 2020 cell is governed by the proved equivalence, and no row falls
in February, so the cell is absent. -/
theorem C4_cell_present_witness :
    buildRows gapDaily = Except.ok gapRows
    ∧ transform_weather_data gapDaily = Except.ok (mkTables gapRows)
    ∧ (((mkTables gapRows).temperature 2020 2).isSome ↔
        ∃ r ∈ gapRows, r.date.year = 2020 ∧ r.date.month = 2)
    ∧ ((mkTables gapRows).temperature 2020 2).isSome = false :=
  ⟨rfl, rfl,
   (C4_cell_present_iff_observation gapDaily gapRows (mkTables gapRows)
      rfl rfl 2020 2).1,
   by decide⟩

/-- C5: on every non-empty (year, month) group the Transformer's
temperature cell is the arithmetic mean of the group's temperatures, the
precipitation cell is the group's summed precipitation, and the wind cell
is a member of the group's wind speeds that bounds them all (its maximum);
and on the spec's two-observation January 2020 example the cells are 11,
2 and 20. -/
theorem C5_group_aggregates :
    (∀ (rows : List Row) (y m : Nat), groupRows rows y m ≠ [] →
      tempCell rows y m =
          some (specMean ((groupRows rows y m).map Row.temperature_2m_mean))
      ∧ precipCell rows y m =
          some (((groupRows rows y m).map Row.precipitation_sum).sum)
      ∧ ∃ q, windCell rows y m = some q
          ∧ q ∈ (groupRows rows y m).map Row.wind_speed_10m_max
          ∧ ∀ x ∈ (groupRows rows y m).map Row.wind_speed_10m_max, x ≤ q)
    ∧ transform_weather_data exampleDaily = Except.ok (mkTables exampleRows)
    ∧ (mkTables exampleRows).temperature 2020 1 = some 11
    ∧ (mkTables exampleRows).precipitation 2020 1 = some 2
    ∧ (mkTables exampleRows).windspeed 2020 1 = some 20 := by
  refine ⟨?_, rfl, ?_, ?_, ?_⟩
  · intro rows y m hg
    have hne : ¬(groupRows rows y m).isEmpty = true :=
      fun hc => hg (List.isEmpty_iff.mp hc)
    refine ⟨?_, ?_, ?_⟩
    · rw [tempCell, if_neg hne, specMean, List.length_map]
    · rw [precipCell, if_neg hne]
    · have hmapne : (groupRows rows y m).map Row.wind_speed_10m_max ≠ [] := by
        intro hn
        exact hg (List.map_eq_nil_iff.mp hn)
      obtain ⟨q, hq⟩ := Option.isSome_iff_exists.mp (listMax_isSome hmapne)
      exact ⟨q, hq, (listMax_spec hq).1, (listMax_spec hq).2⟩
  · show tempCell exampleRows 2020 1 = some 11
    rw [tempCell]
    norm_num [groupRows, exampleRows, List.filter]
  · show precipCell exampleRows 2020 1 = some 2
    rw [precipCell]
    norm_num [groupRows, exampleRows, List.filter]
  · show windCell exampleRows 2020 1 = some 20
    rw [windCell]
    norm_num [groupRows, exampleRows, List.filter, listMax]

/-- Witness for C5's grouped part at the example's January 2020 group. -/
theorem C5_group_aggregates_witness :
    groupRows exampleRows 2020 1 ≠ []
    ∧ (tempCell exampleRows 2020 1 =
          some (specMean ((groupRows exampleRows 2020 1).map
            Row.temperature_2m_mean))
      ∧ precipCell exampleRows 2020 1 =
          some (((groupRows exampleRows 2020 1).map Row.precipitation_sum).sum)
      ∧ ∃ q, windCell exampleRows 2020 1 = some q
          ∧ q ∈ (groupRows exampleRows 2020 1).map Row.wind_speed_10m_max
          ∧ ∀ x ∈ (groupRows exampleRows 2020 1).map Row.wind_speed_10m_max,
              x ≤ q) :=
  ⟨by decide, C5_group_aggregates.1 exampleRows 2020 1 (by decide)⟩

/-- C6: the three tables depend only on the multiset of observations: two
permuted row sequences give identical cells everywhere; the (year, month)
key is the sole grouping criterion. -/
theorem C6_order_invariance (rows₁ rows₂ : List Row)
    (h : rows₁.Perm rows₂) (y m : Nat) :
    tempCell rows₁ y m = tempCell rows₂ y m
    ∧ precipCell rows₁ y m = precipCell rows₂ y m
    ∧ windCell rows₁ y m = windCell rows₂ y m := by
  have hg : (groupRows rows₁ y m).Perm (groupRows rows₂ y m) := h.filter _
  have hlen := hg.length_eq
  have hemp : (groupRows rows₁ y m).isEmpty = (groupRows rows₂ y m).isEmpty := by
    rw [Bool.eq_iff_iff, List.isEmpty_iff_length_eq_zero,
      List.isEmpty_iff_length_eq_zero, hlen]
  refine ⟨?_, ?_, ?_⟩
  · rw [tempCell, tempCell, hemp, (hg.map Row.temperature_2m_mean).sum_eq, hlen]
  · rw [precipCell, precipCell, hemp, (hg.map Row.precipitation_sum).sum_eq]
  · rw [windCell, windCell, listMax_perm (hg.map Row.wind_speed_10m_max)]

/-- Witness for C6 on the example rows and their reversal. -/
theorem C6_order_invariance_witness :
    exampleRows.Perm exampleRows.reverse
    ∧ (tempCell exampleRows 2020 1 = tempCell exampleRows.reverse 2020 1
      ∧ precipCell exampleRows 2020 1 = precipCell exampleRows.reverse 2020 1
      ∧ windCell exampleRows 2020 1 = windCell exampleRows.reverse 2020 1) :=
  ⟨(List.reverse_perm exampleRows).symm,
   C6_order_invariance exampleRows exampleRows.reverse
     (List.reverse_perm exampleRows).symm 2020 1⟩

/-- C8: the Transformer is a pure function of its input: two calls on the
same observation set return equal results, and any two successful results
agree on every cell of every table. -/
theorem C8_transformer_repeatable (d : DailyData) :
    transform_weather_data d = transform_weather_data d
    ∧ ∀ t₁ t₂, transform_weather_data d = Except.ok t₁ →
        transform_weather_data d = Except.ok t₂ →
        ∀ y m, t₁.temperature y m = t₂.temperature y m
          ∧ t₁.precipitation y m = t₂.precipitation y m
          ∧ t₁.windspeed y m = t₂.windspeed y m := by
  refine ⟨rfl, ?_⟩
  intro t₁ t₂ h₁ h₂ y m
  rw [h₁] at h₂
  injection h₂ with h
  rw [h]
  exact ⟨rfl, rfl, rfl⟩

/-- Witness for C8 at the example payload. -/
theorem C8_transformer_repeatable_witness :
    transform_weather_data exampleDaily = transform_weather_data exampleDaily
    ∧ ((mkTables exampleRows).temperature 2020 1 =
        (mkTables exampleRows).temperature 2020 1
      ∧ (mkTables exampleRows).precipitation 2020 1 =
        (mkTables exampleRows).precipitation 2020 1
      ∧ (mkTables exampleRows).windspeed 2020 1 =
        (mkTables exampleRows).windspeed 2020 1) :=
  ⟨(C8_transformer_repeatable exampleDaily).1,
   (C8_transformer_repeatable exampleDaily).2 (mkTables exampleRows)
     (mkTables exampleRows) rfl rfl 2020 1⟩

/-- C10: the three tables of one successful transform are defined on the
same (year, month) grid: a cell is present in the temperature table iff it
is present in the precipitation table iff it is present in the wind table. -/
theorem C10_tables_share_grid (d : DailyData) (t : Tables)
    (ht : transform_weather_data d = Except.ok t) (y m : Nat) :
    ((t.temperature y m).isSome ↔ (t.precipitation y m).isSome)
    ∧ ((t.temperature y m).isSome ↔ (t.windspeed y m).isSome) := by
  unfold transform_weather_data at ht
  cases hb : buildRows d with
  | error e => rw [hb] at ht; cases ht
  | ok rows =>
    rw [hb] at ht
    injection ht with h
    rw [← h]
    exact ⟨(tempCell_isSome_iff rows y m).trans
        (precipCell_isSome_iff rows y m).symm,
      (tempCell_isSome_iff rows y m).trans
        (windCell_isSome_iff rows y m).symm⟩

/-- Witness for C10 at the example payload. -/
theorem C10_tables_share_grid_witness :
    transform_weather_data exampleDaily = Except.ok (mkTables exampleRows)
    ∧ ((((mkTables exampleRows).temperature 2020 1).isSome ↔
        ((mkTables exampleRows).precipitation 2020 1).isSome)
      ∧ (((mkTables exampleRows).temperature 2020 1).isSome ↔
        ((mkTables exampleRows).windspeed 2020 1).isSome)) :=
  ⟨rfl, C10_tables_share_grid exampleDaily (mkTables exampleRows) rfl 2020 1⟩

/-- In a list sorted by `≤`, the index of a strictly smaller member comes
strictly earlier. -/
lemma sorted_indexOf_lt :
    ∀ (l : List Nat), l.Sorted (fun a b => a ≤ b) →
      ∀ y₁ y₂ : Nat, y₁ ∈ l → y₂ ∈ l → y₁ < y₂ →
        l.indexOf y₁ < l.indexOf y₂ := by
  intro l
  induction l with
  | nil => intro _ y₁ y₂ h1; simp at h1
  | cons a t ih =>
    intro hp y₁ y₂ h1 h2 hlt
    have ha := (List.pairwise_cons.mp hp).1
    have ht := (List.pairwise_cons.mp hp).2
    by_cases e1 : a = y₁
    · have h0 : (a :: t).indexOf y₁ = 0 := List.indexOf_cons_eq t e1
      have hne : a ≠ y₂ := by omega
      have h2' : (a :: t).indexOf y₂ = (t.indexOf y₂).succ :=
        List.indexOf_cons_ne t hne
      rw [h0, h2']
      exact Nat.succ_pos _
    · have h1' : y₁ ∈ t := by
        rcases List.mem_cons.mp h1 with h | h
        · exact absurd h.symm e1
        · exact h
      have e2 : a ≠ y₂ := by
        intro he
        have hle : a ≤ y₁ := ha y₁ h1'
        omega
      have h2' : y₂ ∈ t := by
        rcases List.mem_cons.mp h2 with h | h
        · exact absurd h.symm e2
        · exact h
      rw [List.indexOf_cons_ne t e1, List.indexOf_cons_ne t e2]
      exact Nat.succ_lt_succ (ih ht y₁ y₂ h1' h2' hlt)

/-- C9: `plot_variable` enumerates years in sorted order and colors the
i-th year with the i-th ramp value, so of two years present in a table the
chronologically earlier one always sits strictly earlier in the color ramp
(lighter shade) than the later one. -/
theorem C9_color_ramp_monotone (cols : List Nat) (y₁ y₂ : Nat)
    (h₁ : y₁ ∈ cols) (h₂ : y₂ ∈ cols) (hlt : y₁ < y₂) :
    rampIndex cols y₁ < rampIndex cols y₂ := by
  have hs : (plotYears cols).Sorted (fun a b => a ≤ b) :=
    List.sorted_insertionSort _ cols
  have hm₁ : y₁ ∈ plotYears cols :=
    (List.perm_insertionSort _ cols).mem_iff.mpr h₁
  have hm₂ : y₂ ∈ plotYears cols :=
    (List.perm_insertionSort _ cols).mem_iff.mpr h₂
  exact sorted_indexOf_lt (plotYears cols) hs y₁ y₂ hm₁ hm₂ hlt

/-- Witness for C9 on a concrete unsorted column set. -/
theorem C9_color_ramp_witness :
    2010 ∈ [2012, 2010, 2011]
    ∧ 2012 ∈ [2012, 2010, 2011]
    ∧ 2010 < 2012
    ∧ rampIndex [2012, 2010, 2011] 2010 < rampIndex [2012, 2010, 2011] 2012 :=
  ⟨by decide, by decide, by decide,
   C9_color_ramp_monotone [2012, 2010, 2011] 2010 2012 (by decide) (by decide)
     (by decide)⟩
